import Mathlib

set_option maxHeartbeats 1000000

/-!
Verification of the embedding-service core (src/embedding-service/main.py).

The development shallowly embeds the Python source: Python `bytes` become
`List Nat` (each entry a byte value), Python `str` becomes Lean `String`,
Python floats are modelled in exact arithmetic (`ℚ` for the hash-derived
values, `ℝ` once a square root enters), JSON values become the inductive
`JValue`, and functions that raise become `Except`-valued functions.
-/

namespace EmbeddingService

/-! ## SHA-256 (the `hashlib.sha256` primitive used by the deterministic
backend), FIPS 180-4, over byte lists. Word arithmetic is `Nat` modulo
`2 ^ 32`. -/

/-- The SHA-256 word modulus, 2 ^ 32. -/
def M32 : Nat := 4294967296

/-- Right rotation of a 32-bit word. -/
def rotr (n x : Nat) : Nat := ((x >>> n) ||| (x <<< (32 - n))) % M32

/-- Logical right shift. -/
def shr (n x : Nat) : Nat := x >>> n

/-- Bitwise complement within 32 bits. -/
def wnot (x : Nat) : Nat := x ^^^ 4294967295

/-- SHA-256 choice function. -/
def ch (x y z : Nat) : Nat := (x &&& y) ^^^ (wnot x &&& z)

/-- SHA-256 majority function. -/
def maj (x y z : Nat) : Nat := (x &&& y) ^^^ (x &&& z) ^^^ (y &&& z)

def bsig0 (x : Nat) : Nat := rotr 2 x ^^^ rotr 13 x ^^^ rotr 22 x

def bsig1 (x : Nat) : Nat := rotr 6 x ^^^ rotr 11 x ^^^ rotr 25 x

def ssig0 (x : Nat) : Nat := rotr 7 x ^^^ rotr 18 x ^^^ shr 3 x

def ssig1 (x : Nat) : Nat := rotr 17 x ^^^ rotr 19 x ^^^ shr 10 x

/-- The 64 SHA-256 round constants (FIPS 180-4 table, in decimal). -/
def K256 : List Nat :=
  [1116352408, 1899447441, 3049323471, 3921009573, 961987163,
   1508970993, 2453635748, 2870763221, 3624381080, 310598401,
   607225278, 1426881987, 1925078388, 2162078206, 2614888103,
   3248222580, 3835390401, 4022224774, 264347078, 604807628,
   770255983, 1249150122, 1555081692, 1996064986, 2554220882,
   2821834349, 2952996808, 3210313671, 3336571891, 3584528711,
   113926993, 338241895, 666307205, 773529912, 1294757372,
   1396182291, 1695183700, 1986661051, 2177026350, 2456956037,
   2730485921, 2820302411, 3259730800, 3345764771, 3516065817,
   3600352804, 4094571909, 275423344, 430227734, 506948616,
   659060556, 883997877, 958139571, 1322822218, 1537002063,
   1747873779, 1955562222, 2024104815, 2227730452, 2361852424,
   2428436474, 2756734187, 3204031479, 3329325298]

/-- The eight working variables of the SHA-256 compression function
(also used for the running hash value). -/
structure Sha256State where
  a : Nat
  b : Nat
  c : Nat
  d : Nat
  e : Nat
  f : Nat
  g : Nat
  h : Nat

/-- One round of the SHA-256 compression function. -/
def shaRound (s : Sha256State) (k w : Nat) : Sha256State :=
  let t1 := (s.h + bsig1 s.e + ch s.e s.f s.g + k + w) % M32
  let t2 := (bsig0 s.a + maj s.a s.b s.c) % M32
  ⟨(t1 + t2) % M32, s.a, s.b, s.c, (s.d + t1) % M32, s.e, s.f, s.g⟩

/-- Extend a 16-word block to the 64-word message schedule. -/
def extendW (w : List Nat) : List Nat :=
  if _h : 64 ≤ w.length then w
  else
    extendW (w ++ [(ssig1 (w.getD (w.length - 2) 0) + w.getD (w.length - 7) 0 +
      ssig0 (w.getD (w.length - 15) 0) + w.getD (w.length - 16) 0) % M32])
termination_by 64 - w.length
decreasing_by
  simp only [List.length_append, List.length_singleton]
  omega

/-- Process one 16-word block: run 64 rounds, then add the working
variables back into the running hash value. -/
def compressBlock (st : Sha256State) (block : List Nat) : Sha256State :=
  let ws := extendW block
  let fin := (K256.zip ws).foldl (fun s p => shaRound s p.1 p.2) st
  ⟨(st.a + fin.a) % M32, (st.b + fin.b) % M32, (st.c + fin.c) % M32, (st.d + fin.d) % M32,
   (st.e + fin.e) % M32, (st.f + fin.f) % M32, (st.g + fin.g) % M32, (st.h + fin.h) % M32⟩

/-- SHA-256 padding: a 0x80 byte, zero bytes to 56 mod 64, then the
bit length as 8 big-endian bytes. -/
def padBytes (msg : List Nat) : List Nat :=
  let z := (64 - (msg.length + 9) % 64) % 64
  let bitLen := 8 * msg.length
  msg ++ [128] ++ List.replicate z 0 ++
    [bitLen / 2 ^ 56 % 256, bitLen / 2 ^ 48 % 256, bitLen / 2 ^ 40 % 256, bitLen / 2 ^ 32 % 256,
     bitLen / 2 ^ 24 % 256, bitLen / 2 ^ 16 % 256, bitLen / 2 ^ 8 % 256, bitLen % 256]

/-- Split a byte list into 64-byte chunks. -/
def chunks64 (l : List Nat) : List (List Nat) :=
  match l with
  | [] => []
  | x :: xs => ((x :: xs).take 64) :: chunks64 ((x :: xs).drop 64)
termination_by l.length
decreasing_by
  simp only [List.length_drop, List.length_cons]
  omega

/-- Group bytes into big-endian 32-bit words. -/
def bytesToWords : List Nat → List Nat
  | b0 :: b1 :: b2 :: b3 :: rest => (((b0 * 256 + b1) * 256 + b2) * 256 + b3) :: bytesToWords rest
  | _ => []

/-- The SHA-256 initial hash value (FIPS 180-4, in decimal). -/
def initState : Sha256State :=
  ⟨1779033703, 3144134277, 1013904242, 2773480762,
   1359893119, 2600822924, 528734635, 1541459225⟩

/-- Serialize one 32-bit word as 4 big-endian bytes. -/
def word2be (w : Nat) : List Nat := [w / 2 ^ 24 % 256, w / 2 ^ 16 % 256, w / 2 ^ 8 % 256, w % 256]

/-- Serialize the final state as the 32-byte digest. -/
def stateBytes (st : Sha256State) : List Nat :=
  word2be st.a ++ word2be st.b ++ word2be st.c ++ word2be st.d ++
  word2be st.e ++ word2be st.f ++ word2be st.g ++ word2be st.h

/-- SHA-256 of a byte list: the 32-byte digest
(`hashlib.sha256(data).digest()`). -/
def sha256 (msg : List Nat) : List Nat :=
  stateBytes ((chunks64 (padBytes msg)).foldl (fun st b => compressBlock st (bytesToWords b)) initState)

/-- A SHA-256 digest always has 32 bytes. -/
theorem sha256_length (msg : List Nat) : (sha256 msg).length = 32 := by
  simp [sha256, stateBytes, word2be]

/-- A SHA-256 digest is never empty. -/
theorem sha256_ne_nil (msg : List Nat) : sha256 msg ≠ [] := by
  intro h
  have h32 := sha256_length msg
  rw [h] at h32
  simp at h32

/-! ## The deterministic backend (`DeterministicBackend` in main.py). -/

/-- `PIPELINE_VECTOR_DIMENSIONS` in main.py. -/
def PIPELINE_VECTOR_DIMENSIONS : Nat := 4096

/-- The UTF-8 bytes of a string (`str.encode` in Python). -/
def utf8Bytes (s : String) : List Nat := s.toUTF8.toList.map (fun b => b.toNat)

/-- The byte string hashed on iteration `counter` for a given text:
the UTF-8 encoding of the f-string of text, a newline, and the decimal
counter. -/
def msgFor (text : String) (counter : Nat) : List Nat :=
  utf8Bytes (text ++ "\n" ++ toString counter)

/-- One 2-byte little-endian pair mapped into the interval from -1 to 1:
`(raw / 32767.5) - 1.0` where `raw = b0 + 256 * b1`, in exact rational
arithmetic. -/
def pairValue (b0 b1 : Nat) : ℚ := ((b0 : ℚ) + 256 * (b1 : ℚ)) / 32767.5 - 1

namespace DeterministicBackend

/-- `DeterministicBackend.dimensions`. -/
def dimensions : Nat := PIPELINE_VECTOR_DIMENSIONS

end DeterministicBackend

/-- The inner `for idx in range(0, len(digest), 2)` loop of
`_vector_for_text`: slice the digest into 2-byte pairs (zero-padding a
trailing odd byte), append each converted value, and break once `dims`
values have been collected. -/
def addDigest (dims : Nat) (digest : List Nat) (values : List ℚ) : List ℚ :=
  match digest with
  | [] => values
  | [b0] => values ++ [pairValue b0 0]
  | b0 :: b1 :: rest =>
    let vs := values ++ [pairValue b0 b1]
    if dims ≤ vs.length then vs else addDigest dims rest vs

/-- Two-at-a-time list induction, matching `addDigest`'s recursion. -/
theorem twoStepList {P : List Nat → Prop} (h0 : P []) (h1 : ∀ b, P [b])
    (h2 : ∀ b0 b1 rest, P rest → P (b0 :: b1 :: rest)) : ∀ l, P l
  | [] => h0
  | [b] => h1 b
  | b0 :: b1 :: rest => h2 b0 b1 rest (twoStepList h0 h1 h2 rest)

/-- `addDigest` never removes values. -/
theorem addDigest_le (dims : Nat) (digest : List Nat) :
    ∀ values : List ℚ, values.length ≤ (addDigest dims digest values).length := by
  induction digest using twoStepList with
  | h0 => intro values; simp [addDigest]
  | h1 b => intro values; simp [addDigest]
  | h2 b0 b1 rest ih =>
    intro values
    simp only [addDigest]
    split
    · simp
    · calc values.length ≤ (values ++ [pairValue b0 b1]).length := by simp
        _ ≤ _ := ih _

/-- On a nonempty digest, `addDigest` appends at least one value. -/
theorem addDigest_gt (dims : Nat) (digest : List Nat) (values : List ℚ)
    (hne : digest ≠ []) : values.length < (addDigest dims digest values).length := by
  match digest with
  | [] => exact absurd rfl hne
  | [b0] => simp [addDigest]
  | b0 :: b1 :: rest =>
    simp only [addDigest]
    split
    · simp
    · calc values.length < (values ++ [pairValue b0 b1]).length := by simp
        _ ≤ _ := addDigest_le dims rest _

/-- On an even-length digest, `addDigest` never overshoots `dims`. -/
theorem addDigest_le_dims (dims : Nat) (digest : List Nat) :
    digest.length % 2 = 0 →
    ∀ values : List ℚ, values.length < dims → (addDigest dims digest values).length ≤ dims := by
  induction digest using twoStepList with
  | h0 => intro _ values hlt; simpa [addDigest] using Nat.le_of_lt hlt
  | h1 b => intro hev; simp at hev
  | h2 b0 b1 rest ih =>
    intro hev values hlt
    have hev' : rest.length % 2 = 0 := by
      simp only [List.length_cons] at hev
      omega
    simp only [addDigest]
    split
    · simpa using hlt
    · rename_i hsplit
      have : (values ++ [pairValue b0 b1]).length < dims := by
        simp only [List.length_append, List.length_singleton] at hsplit ⊢
        omega
      exact ih hev' _ this

/-- Every value `addDigest` appends is a converted byte pair. -/
theorem addDigest_mem (dims : Nat) (digest : List Nat) :
    ∀ (values : List ℚ) (v : ℚ), v ∈ addDigest dims digest values →
      v ∈ values ∨ ∃ b0 b1 : Nat, v = pairValue b0 b1 := by
  induction digest using twoStepList with
  | h0 => intro values v hv; exact Or.inl (by simpa [addDigest] using hv)
  | h1 b => intro values v hv
            simp only [addDigest, List.mem_append, List.mem_singleton] at hv
            rcases hv with hv | hv
            · exact Or.inl hv
            · exact Or.inr ⟨b, 0, hv⟩
  | h2 b0 b1 rest ih =>
    intro values v hv
    simp only [addDigest] at hv
    split at hv
    · simp only [List.mem_append, List.mem_singleton] at hv
      rcases hv with hv | hv
      · exact Or.inl hv
      · exact Or.inr ⟨b0, b1, hv⟩
    · rcases ih _ v hv with hv' | hv'
      · simp only [List.mem_append, List.mem_singleton] at hv'
        rcases hv' with hv' | hv'
        · exact Or.inl hv'
        · exact Or.inr ⟨b0, b1, hv'⟩
      · exact Or.inr hv'

/-- The `while len(values) < self.dimensions` loop of `_vector_for_text`. -/
def vecLoop (text : String) (counter : Nat) (values : List ℚ) : List ℚ :=
  if h : values.length < DeterministicBackend.dimensions then
    vecLoop text (counter + 1)
      (addDigest DeterministicBackend.dimensions (sha256 (msgFor text counter)) values)
  else values
termination_by DeterministicBackend.dimensions - values.length
decreasing_by
  have h1 : values.length <
      (addDigest DeterministicBackend.dimensions (sha256 (msgFor text counter)) values).length :=
    addDigest_gt _ _ _ (sha256_ne_nil _)
  omega

/-- The pre-normalization value list of `_vector_for_text`. -/
def vecValues (text : String) : List ℚ := vecLoop text 0 []

/-- The loop always terminates with exactly `dimensions` values. -/
theorem vecLoop_length (text : String) (counter : Nat) (values : List ℚ) :
    values.length ≤ DeterministicBackend.dimensions →
    (vecLoop text counter values).length = DeterministicBackend.dimensions := by
  induction counter, values using vecLoop.induct text with
  | case1 counter values h ih =>
    intro _
    rw [vecLoop, dif_pos h]
    refine ih (addDigest_le_dims _ _ ?_ _ h)
    rw [sha256_length]
  | case2 counter values h =>
    intro hle
    rw [vecLoop, dif_neg h]
    omega

/-- Every value the loop produces is a converted byte pair. -/
theorem vecLoop_mem (text : String) (counter : Nat) (values : List ℚ) :
    ∀ v ∈ vecLoop text counter values, v ∈ values ∨ ∃ b0 b1 : Nat, v = pairValue b0 b1 := by
  induction counter, values using vecLoop.induct text with
  | case1 counter values h ih =>
    intro v hv
    rw [vecLoop, dif_pos h] at hv
    rcases ih v hv with hv' | hv'
    · exact addDigest_mem _ _ _ v hv'
    · exact Or.inr hv'
  | case2 counter values h =>
    intro v hv
    rw [vecLoop, dif_neg h] at hv
    exact Or.inl hv

/-- The pre-normalization vector has exactly 4096 entries. -/
theorem vecValues_length (text : String) : (vecValues text).length = 4096 :=
  vecLoop_length text 0 [] (by simp)

/-- Every entry of the pre-normalization vector is a converted byte pair. -/
theorem vecValues_mem (text : String) (v : ℚ) (hv : v ∈ vecValues text) :
    ∃ b0 b1 : Nat, v = pairValue b0 b1 := by
  rcases vecLoop_mem text 0 [] v hv with hv' | hv'
  · simp at hv'
  · exact hv'

/-- A converted byte pair is never zero: its numerator `2 * raw - 65535`
is odd. -/
theorem pairValue_ne_zero (b0 b1 : Nat) : pairValue b0 b1 ≠ 0 := by
  unfold pairValue
  intro h
  have h3 : ((b0 : ℚ) + 256 * (b1 : ℚ)) = 32767.5 := by
    have h2 : ((b0 : ℚ) + 256 * (b1 : ℚ)) / 32767.5 = 1 := by linarith
    have hne : (32767.5 : ℚ) ≠ 0 := by norm_num
    field_simp at h2
    linarith
  have h4 : ((2 * (b0 + 256 * b1) : Nat) : ℚ) = 65535 := by
    rw [Nat.cast_mul, Nat.cast_add, Nat.cast_mul]
    norm_num
    linarith
  have h5 : 2 * (b0 + 256 * b1) = 65535 := by exact_mod_cast h4
  omega

/-- `sum(value * value for value in values)` in exact arithmetic. -/
def sumSq (l : List ℚ) : ℚ := (l.map (fun v => v * v)).sum

theorem sumSq_nonneg (l : List ℚ) : 0 ≤ sumSq l := by
  induction l with
  | nil => simp [sumSq]
  | cons x xs ih =>
    simp only [sumSq, List.map_cons, List.sum_cons] at *
    nlinarith [mul_self_nonneg x]

theorem sumSq_pos (l : List ℚ) (hne : l ≠ []) (hnz : ∀ v ∈ l, v ≠ 0) : 0 < sumSq l := by
  match l with
  | x :: xs =>
    have hx : x ≠ 0 := hnz x (by simp)
    have hxx : 0 < x * x := mul_self_pos.mpr hx
    have hxs := sumSq_nonneg xs
    simp only [sumSq, List.map_cons, List.sum_cons] at *
    nlinarith

theorem vecValues_ne_zero (text : String) : ∀ v ∈ vecValues text, v ≠ 0 := by
  intro v hv
  rcases vecValues_mem text v hv with ⟨b0, b1, rfl⟩
  exact pairValue_ne_zero b0 b1

theorem vecValues_sumSq_pos (text : String) : 0 < sumSq (vecValues text) := by
  refine sumSq_pos _ ?_ (vecValues_ne_zero text)
  intro h
  have := vecValues_length text
  rw [h] at this
  simp at this

/-- Euclidean norm of a real vector. -/
noncomputable def euclidNorm (l : List ℝ) : ℝ := Real.sqrt ((l.map (fun v => v * v)).sum)

/-- `DeterministicBackend._vector_for_text` (named `_vector_for_text` in
the source): collect the 4096 hash-derived values, compute the Euclidean
norm, redirect an exactly-zero norm to a fixed unit vector, and divide
every component by the norm. Exact arithmetic: the float comparison
`norm == 0` holds precisely when the norm is zero. -/
noncomputable def vector_for_text (text : String) : List ℝ :=
  let values := vecValues text
  let norm : ℝ := Real.sqrt ((sumSq values : ℚ) : ℝ)
  if norm = 0 then (values.set 0 1).map (fun v => ((v : ℚ) : ℝ) / 1)
  else values.map (fun v => ((v : ℚ) : ℝ) / norm)

/-- The norm of the pre-normalization vector is strictly positive, so the
zero-norm branch of `_vector_for_text` is never taken. -/
theorem vector_for_text_eq_normalize (text : String) :
    Real.sqrt ((sumSq (vecValues text) : ℚ) : ℝ) ≠ 0 ∧
    vector_for_text text =
      (vecValues text).map
        (fun v => ((v : ℚ) : ℝ) / Real.sqrt ((sumSq (vecValues text) : ℚ) : ℝ)) := by
  have hpos : (0 : ℝ) < ((sumSq (vecValues text) : ℚ) : ℝ) := by
    exact_mod_cast vecValues_sumSq_pos text
  have hs : Real.sqrt ((sumSq (vecValues text) : ℚ) : ℝ) ≠ 0 :=
    ne_of_gt (Real.sqrt_pos.mpr hpos)
  exact ⟨hs, by rw [vector_for_text, if_neg hs]⟩

theorem sumSqR_div (l : List ℚ) (c : ℝ) :
    ((l.map fun v => ((v : ℚ) : ℝ) / c).map fun v => v * v).sum =
      ((sumSq l : ℚ) : ℝ) / (c * c) := by
  induction l with
  | nil => simp [sumSq]
  | cons x xs ih =>
    have hs : sumSq (x :: xs) = x * x + sumSq xs := by simp [sumSq]
    simp only [List.map_cons, List.sum_cons, ih, hs]
    rw [Rat.cast_add, Rat.cast_mul, div_mul_div_comm, div_add_div_same]

/-- The normalized vector has Euclidean norm exactly 1 (exact
arithmetic). -/
theorem vector_for_text_norm (text : String) : euclidNorm (vector_for_text text) = 1 := by
  obtain ⟨hs, heq⟩ := vector_for_text_eq_normalize text
  have hpos : (0 : ℝ) < ((sumSq (vecValues text) : ℚ) : ℝ) := by
    exact_mod_cast vecValues_sumSq_pos text
  rw [euclidNorm, heq, sumSqR_div,
    Real.mul_self_sqrt (le_of_lt hpos), div_self (ne_of_gt hpos), Real.sqrt_one]

theorem vector_for_text_length (text : String) : (vector_for_text text).length = 4096 := by
  obtain ⟨_, heq⟩ := vector_for_text_eq_normalize text
  rw [heq, List.length_map, vecValues_length]

/-- `DeterministicBackend.embed`: ignores `max_length` and maps
`_vector_for_text` over the texts. -/
noncomputable def DeterministicBackend.embed (texts : List String) (max_length : ℤ) :
    List (List ℝ) :=
  let _ := max_length
  texts.map vector_for_text

/-- Claim C1: for every string `s`, `DeterministicBackend.embed [s] m` is the
same vector on every call and for every `m` — the backend ignores
`max_length`, and the result is a pure function of `s` alone: embedding `s`
inside any batch, after any other strings, yields the same vector at the
position of `s`. -/
theorem claim_C1_deterministic_embed_pure (s : String) (m m' : ℤ) (pre post : List String) :
    DeterministicBackend.embed [s] m = [vector_for_text s] ∧
    DeterministicBackend.embed [s] m = DeterministicBackend.embed [s] m' ∧
    (DeterministicBackend.embed (pre ++ s :: post) m)[pre.length]? = some (vector_for_text s) := by
  refine ⟨rfl, rfl, ?_⟩
  simp only [DeterministicBackend.embed, List.map_append, List.map_cons]
  rw [List.getElem?_append_right (by simp)]
  simp

/-- Claim C2: for every input string, `_vector_for_text` (hash-derived
values, truncated to 4096, mapped through `(raw / 32767.5) - 1.0` and
divided by the Euclidean norm) produces a vector of length exactly 4096
whose Euclidean norm, in exact real arithmetic, equals 1. -/
theorem claim_C2_deterministic_vector_shape (s : String) :
    (vector_for_text s).length = 4096 ∧ euclidNorm (vector_for_text s) = 1 :=
  ⟨vector_for_text_length s, vector_for_text_norm s⟩

/-- Claim C9: every component of the pre-normalization vector is a
converted byte pair `(raw / 32767.5) - 1.0` and is never zero, so the
vector's squared norm is strictly positive, the norm is nonzero, and the
zero-norm fallback branch of `_vector_for_text` is unreachable: the
function always takes the plain normalization branch. -/
theorem claim_C9_zero_norm_branch_unreachable (s : String) :
    (∀ v ∈ vecValues s, (∃ b0 b1 : Nat, v = pairValue b0 b1) ∧ v ≠ 0) ∧
    0 < sumSq (vecValues s) ∧
    Real.sqrt ((sumSq (vecValues s) : ℚ) : ℝ) ≠ 0 ∧
    vector_for_text s =
      (vecValues s).map
        (fun v => ((v : ℚ) : ℝ) / Real.sqrt ((sumSq (vecValues s) : ℚ) : ℝ)) :=
  ⟨fun v hv => ⟨vecValues_mem s v hv, vecValues_ne_zero s v hv⟩,
   vecValues_sumSq_pos s,
   (vector_for_text_eq_normalize s).1,
   (vector_for_text_eq_normalize s).2⟩

/-! ## JSON values and request parsing (`parse_input_texts`,
`parse_max_length` in main.py). -/

/-- A parsed JSON value (the result of `json.loads`). Numbers are exact
rationals; the nonstandard `Infinity` and `NaN` extensions of Python's
parser are outside the model. -/
inductive JValue where
  | null : JValue
  | bool : Bool → JValue
  | num : ℚ → JValue
  | str : String → JValue
  | arr : List JValue → JValue
  | obj : List (String × JValue) → JValue

/-- Key lookup in a parsed JSON object (`json.loads` keeps the last of
duplicate keys, so keys are effectively unique; lookup takes the first
match). -/
def jlookup (data : List (String × JValue)) (k : String) : Option JValue :=
  List.lookup k data

/-- Python `data.get(k)`: a missing key and a JSON-null value both give
Python `None`. -/
def pyGet (data : List (String × JValue)) (k : String) : Option JValue :=
  match jlookup data k with
  | some JValue.null => none
  | some v => some v
  | none => none

/-- The payload selection of `parse_input_texts`:
`payload = data.get("texts")`, then
`if payload is None and "input" in data: payload = data["input"]`. -/
def payloadOf (data : List (String × JValue)) : Option JValue :=
  match pyGet data "texts" with
  | some v => some v
  | none => if (jlookup data "input").isSome then pyGet data "input" else none

/-- The whitespace characters stripped by Python `str.strip` (ASCII
subset; Unicode space characters are outside the model). -/
def isPyWs (c : Char) : Bool :=
  c == ' ' || c == '\t' || c == '\n' || c == '\r' || c == Char.ofNat 11 || c == Char.ofNat 12

/-- Python `str.strip()`. -/
def pyStrip (s : String) : String :=
  ⟨((s.toList.dropWhile isPyWs).reverse.dropWhile isPyWs).reverse⟩

/-- The validation errors `parse_input_texts` can raise (each one a
`ValueError` with the corresponding message in the source). -/
inductive ValErr where
  | missingField
  | wrongPayloadType
  | elemNotString : Nat → ValErr
  | emptyInput
  | tooManyItems : Nat → Nat → ValErr
  deriving DecidableEq

/-- The `for index, item in enumerate(texts)` loop of
`parse_input_texts`: each element must be a string; strip it and keep
nonempty results in order. -/
def cleanLoop (items : List JValue) (idx : Nat) (acc : List String) :
    Except ValErr (List String) :=
  match items with
  | [] => Except.ok acc
  | JValue.str s :: rest =>
    let t := pyStrip s
    cleanLoop rest (idx + 1) (if t = "" then acc else acc ++ [t])
  | _ :: _ => Except.error (ValErr.elemNotString idx)

/-- The tail of `parse_input_texts`: clean the element list, then check
for emptiness and the item limit. -/
def cleanAndCheck (items : List JValue) (max_items : Nat) : Except ValErr (List String) :=
  match cleanLoop items 0 [] with
  | Except.error e => Except.error e
  | Except.ok cleaned =>
    if cleaned.length = 0 then Except.error ValErr.emptyInput
    else if max_items < cleaned.length then
      Except.error (ValErr.tooManyItems cleaned.length max_items)
    else Except.ok cleaned

/-- `parse_input_texts(data, max_items=...)`. -/
def parse_input_texts (data : List (String × JValue)) (max_items : Nat) :
    Except ValErr (List String) :=
  match payloadOf data with
  | none => Except.error ValErr.missingField
  | some (JValue.str s) => cleanAndCheck [JValue.str s] max_items
  | some (JValue.arr items) => cleanAndCheck items max_items
  | some _ => Except.error ValErr.wrongPayloadType

/-- Decimal digit-list value. -/
def digitsVal (ds : List Char) : Int :=
  ds.foldl (fun acc c => acc * 10 + (c.toNat - 48 : Int)) 0

/-- Python `int(s)` on a string: optional sign and decimal digits after
stripping whitespace (numeric-literal underscores are not modelled). -/
def parseIntStr (s : String) : Option Int :=
  match (pyStrip s).toList with
  | [] => none
  | '-' :: ds => if ds ≠ [] ∧ ds.all Char.isDigit then some (-(digitsVal ds)) else none
  | '+' :: ds => if ds ≠ [] ∧ ds.all Char.isDigit then some (digitsVal ds) else none
  | ds => if ds ≠ [] ∧ ds.all Char.isDigit then some (digitsVal ds) else none

/-- Python `int(raw)` on a JSON value: ints pass through, floats truncate
toward zero, bools map to 0 or 1, strings parse as decimal; `None`,
arrays and objects raise `TypeError`. -/
def pyToInt : JValue → Option Int
  | JValue.num q => some (Int.tdiv q.num q.den)
  | JValue.bool b => some (if b then 1 else 0)
  | JValue.str s => parseIntStr s
  | _ => none

/-- The clamp at the end of `parse_max_length`. -/
def clampML (value : Int) : Int :=
  if value < 8 then 8 else if value > 4096 then 4096 else value

/-- `parse_max_length(data, default_value)`: when the field is absent the
default itself is the value of `raw` and flows through `int(raw)` and the
clamp; a non-coercible value returns the default unclamped. -/
def parse_max_length (data : List (String × JValue)) (default_value : Int) : Int :=
  match jlookup data "max_length" with
  | none => clampML default_value
  | some v =>
    match pyToInt v with
    | none => default_value
    | some value => clampML value

/-- On a list of strings, the cleaning loop never fails and returns the
stripped nonempty strings appended to the accumulator, in order. -/
theorem cleanLoop_strings (strs : List String) (idx : Nat) (acc : List String) :
    cleanLoop (strs.map JValue.str) idx acc =
      Except.ok (acc ++ (strs.map pyStrip).filter (fun t => t ≠ "")) := by
  induction strs generalizing idx acc with
  | nil => simp [cleanLoop]
  | cons s rest ih =>
    simp only [List.map_cons, cleanLoop, ih, List.filter_cons]
    by_cases h : pyStrip s = ""
    · simp [h]
    · simp [h]

/-- Claim C3 stated from the spec's words: trim every string, drop the
ones that become empty, fail on zero survivors or on exceeding the item
limit, otherwise return the survivors in order. -/
def validateSpec (strs : List String) (max_items : Nat) : Except ValErr (List String) :=
  let survivors := (strs.map pyStrip).filter (fun t => t ≠ "")
  if survivors = [] then Except.error ValErr.emptyInput
  else if max_items < survivors.length then
    Except.error (ValErr.tooManyItems survivors.length max_items)
  else Except.ok survivors

/-- Claim C3: for every parsed JSON object whose text payload is a list
of strings, `parse_input_texts` trims each string, drops the ones that
become empty, fails exactly on zero survivors (`EmptyInput`) or on more
survivors than `max_items` (`TooManyItems`, reporting count and limit),
and otherwise returns the surviving trimmed strings in input order. -/
theorem claim_C3_parse_input_texts (data : List (String × JValue)) (max_items : Nat)
    (strs : List String)
    (hp : payloadOf data = some (JValue.arr (strs.map JValue.str))) :
    parse_input_texts data max_items = validateSpec strs max_items := by
  unfold parse_input_texts
  rw [hp]
  show cleanAndCheck (strs.map JValue.str) max_items = validateSpec strs max_items
  unfold cleanAndCheck validateSpec
  rw [cleanLoop_strings]
  simp only [List.nil_append]
  by_cases h : (strs.map pyStrip).filter (fun t => t ≠ "") = []
  · simp [h]
  · have hlen : ((strs.map pyStrip).filter (fun t => t ≠ "")).length ≠ 0 := by
      simpa [List.length_eq_zero] using h
    simp [h, hlen]

/-- Witness for claim C3 at a concrete request object. -/
theorem claim_C3_witness :
    parse_input_texts [("texts", JValue.arr [JValue.str " a ", JValue.str "  "])] 64 =
      Except.ok ["a"] := by
  have h := claim_C3_parse_input_texts
    [("texts", JValue.arr [JValue.str " a ", JValue.str "  "])] 64 [" a ", "  "] rfl
  rw [h]
  rfl

/-- The spec-side clamp of claim C4: 8 below the range, 4096 above it,
identity inside. -/
def clampSpec (v : Int) : Int := max 8 (min 4096 v)

theorem clampML_eq_clampSpec (v : Int) : clampML v = clampSpec v := by
  unfold clampML clampSpec
  split
  · rename_i h
    rw [max_eq_left]
    omega
  · split
    · rename_i h h2
      rw [min_eq_left (by omega), max_eq_right (by omega)]
    · rename_i h h2
      rw [min_eq_right (by omega), max_eq_right (by omega)]

/-- Counterexample to claim C4 as stated: with configured default 5000
and the field absent, `parse_max_length` returns 4096, not the default
5000 — the absent-field default is itself clamped. -/
theorem claim_C4_counterexample :
    parse_max_length ([] : List (String × JValue)) 5000 = 4096 ∧ (4096 : Int) ≠ 5000 := by
  constructor
  · rfl
  · decide

/-- Claim C4, amended: `parse_max_length` never fails; when the field is
absent it returns the default clamped to the inclusive range from 8 to
4096 (hence the default itself exactly when it lies in that range); when
the value cannot be coerced to an integer it silently returns the default
unclamped; otherwise it returns the coerced value clamped to that
range. -/
theorem claim_C4_parse_max_length_amended (data : List (String × JValue)) (d : Int) :
    parse_max_length data d =
      (match jlookup data "max_length" with
       | none => clampSpec d
       | some v =>
         match pyToInt v with
         | none => d
         | some value => clampSpec value) := by
  unfold parse_max_length
  cases h : jlookup data "max_length" with
  | none =>
    simp only [h]
    exact clampML_eq_clampSpec d
  | some v =>
    simp only [h]
    cases hv : pyToInt v with
    | none => simp only [hv]
    | some value =>
      simp only [hv]
      exact clampML_eq_clampSpec value

/-- Claim C10: when a parsed object has both a "texts" key and an
"input" key, the validator uses "texts" and ignores "input" — except when
"texts" is JSON null, in which case "input"'s value is used; and when
"texts" is null and no "input" key exists, the result is the
missing-field error. -/
theorem claim_C10_texts_precedence (data : List (String × JValue)) (tv w : JValue) (m : Nat)
    (ht : jlookup data "texts" = some tv) :
    (tv ≠ JValue.null → payloadOf data = some tv) ∧
    (tv = JValue.null → jlookup data "input" = some w → w ≠ JValue.null →
      payloadOf data = some w) ∧
    (tv = JValue.null → jlookup data "input" = none →
      parse_input_texts data m = Except.error ValErr.missingField) := by
  refine ⟨?_, ?_, ?_⟩
  · intro hne
    unfold payloadOf pyGet
    rw [ht]
    cases tv with
    | null => exact absurd rfl hne
    | bool b => rfl
    | num q => rfl
    | str s => rfl
    | arr l => rfl
    | obj o => rfl
  · intro he hi hw
    subst he
    unfold payloadOf pyGet
    rw [ht, hi]
    cases w with
    | null => exact absurd rfl hw
    | bool b => rfl
    | num q => rfl
    | str s => rfl
    | arr l => rfl
    | obj o => rfl
  · intro he hi
    subst he
    unfold parse_input_texts payloadOf pyGet
    rw [ht, hi]
    rfl

/-- Witness for claim C10 at concrete request objects. -/
theorem claim_C10_witness :
    payloadOf [("texts", JValue.str "x"), ("input", JValue.str "y")] = some (JValue.str "x") ∧
    parse_input_texts [("texts", JValue.null)] 3 = Except.error ValErr.missingField := by
  constructor
  · exact (claim_C10_texts_precedence [("texts", JValue.str "x"), ("input", JValue.str "y")]
      (JValue.str "x") (JValue.str "y") 3 rfl).1 (by simp)
  · exact (claim_C10_texts_precedence [("texts", JValue.null)]
      JValue.null (JValue.str "y") 3 rfl).2.2 rfl rfl

/-! ## Backend construction and the startup dimension guard
(`create_backend`, `run_server` in main.py). -/

/-- The configuration slice the core reads (fields of `Settings`). -/
structure Settings where
  backend : String
  model_name : String
  max_length : Int
  max_items : Nat
  max_body_bytes : Int

/-- A constructed backend as the request pipeline sees it: its identity,
declared dimensionality, and embed function (which can raise),
polymorphic in the vector element type. -/
structure Backend (α : Type) where
  name : String
  dimensions : Nat
  embed : List String → Int → Except String (List (List α))

/-- Modelled from the spec: the external transformers model load
(`TransformersBackend._load_model`) is a black box that either raises or
yields a model whose configuration reports some hidden size and that can
embed batches; only those observables reach the core. -/
inductive LoadOutcome (α : Type) where
  | fail : LoadOutcome α
  | ok : Int → (List String → Int → Except String (List (List α))) → LoadOutcome α

/-- `TransformersBackend` dimensionality: the model's hidden size when
positive, else the pipeline constant. -/
def transformersDims (hiddenSize : Int) : Nat :=
  if 0 < hiddenSize then hiddenSize.toNat else PIPELINE_VECTOR_DIMENSIONS

/-- The ways `create_backend` can raise: the unsupported-backend
`ValueError`, a load failure inside `TransformersBackend.__init__`, or
the dimension-mismatch `RuntimeError` (got, expected). -/
inductive CreateErr where
  | unsupportedBackend : String → CreateErr
  | loadFailed : CreateErr
  | dimMismatch : Nat → Nat → CreateErr

/-- The construction half of `create_backend`: build the backend the
settings name. -/
noncomputable def constructBackend (settings : Settings) (load : LoadOutcome ℝ) :
    Except CreateErr (Backend ℝ) :=
  if settings.backend = "deterministic" then
    Except.ok ⟨"deterministic", PIPELINE_VECTOR_DIMENSIONS,
      fun texts ml => Except.ok (DeterministicBackend.embed texts ml)⟩
  else if settings.backend = "transformers" then
    match load with
    | LoadOutcome.fail => Except.error CreateErr.loadFailed
    | LoadOutcome.ok hiddenSize embedFn =>
      Except.ok ⟨"transformers", transformersDims hiddenSize, embedFn⟩
  else Except.error (CreateErr.unsupportedBackend settings.backend)

/-- `create_backend`: construct, then enforce the pipeline dimension
contract, raising on mismatch. -/
noncomputable def create_backend (settings : Settings) (load : LoadOutcome ℝ) :
    Except CreateErr (Backend ℝ) :=
  match constructBackend settings load with
  | Except.error e => Except.error e
  | Except.ok backend =>
    if backend.dimensions ≠ PIPELINE_VECTOR_DIMENSIONS then
      Except.error (CreateErr.dimMismatch backend.dimensions PIPELINE_VECTOR_DIMENSIONS)
    else Except.ok backend

/-- `ServiceState`: configuration, the one active backend, and the start
timestamp. -/
structure ServiceState where
  settings : Settings
  backend : Backend ℝ
  started_at : ℚ

/-- The startup phase of `run_server`: build the backend and the service
state. A construction error propagates (the process exits before the
listener ever binds), so `none` models "the server never runs". -/
noncomputable def run_server_state (settings : Settings) (load : LoadOutcome ℝ) (now : ℚ) :
    Option ServiceState :=
  match create_backend settings load with
  | Except.error _ => none
  | Except.ok backend => some ⟨settings, backend, now⟩

/-- Claim C5: whenever backend construction yields a backend, the guard
in `create_backend` fails exactly when the backend's declared
dimensionality differs from the pipeline constant 4096; consequently
every `ServiceState` the server ever runs with has a backend of
dimensionality 4096. -/
theorem claim_C5_dimension_guard (settings : Settings) (load : LoadOutcome ℝ) (now : ℚ) :
    (∀ b : Backend ℝ, constructBackend settings load = Except.ok b →
      ((create_backend settings load = Except.ok b ↔ b.dimensions = 4096) ∧
       (create_backend settings load =
          Except.error (CreateErr.dimMismatch b.dimensions PIPELINE_VECTOR_DIMENSIONS) ↔
        b.dimensions ≠ 4096))) ∧
    (∀ st : ServiceState, run_server_state settings load now = some st →
      st.backend.dimensions = 4096) := by
  constructor
  · intro b hb
    unfold create_backend
    simp only [hb]
    by_cases hd : b.dimensions = 4096
    · rw [if_neg (by simp [PIPELINE_VECTOR_DIMENSIONS, hd])]
      constructor
      · exact ⟨fun _ => hd, fun _ => rfl⟩
      · constructor
        · intro h
          exact absurd h (by simp)
        · intro h
          exact absurd hd h
    · rw [if_pos (by simp [PIPELINE_VECTOR_DIMENSIONS, hd])]
      constructor
      · constructor
        · intro h
          exact absurd h (by simp)
        · intro h
          exact absurd h hd
      · exact ⟨fun _ => hd, fun _ => rfl⟩
  · intro st hst
    unfold run_server_state at hst
    cases hc : create_backend settings load with
    | error e => rw [hc] at hst; exact absurd hst (by simp)
    | ok b =>
      rw [hc] at hst
      have hst' : (⟨settings, b, now⟩ : ServiceState) = st := Option.some.inj hst
      have hb : st.backend = b := by rw [← hst']
      unfold create_backend at hc
      cases hcb : constructBackend settings load with
      | error e => rw [hcb] at hc; exact absurd hc (by simp)
      | ok b0 =>
        simp only [hcb] at hc
        by_cases hd : b0.dimensions = PIPELINE_VECTOR_DIMENSIONS
        · rw [if_neg (by simpa using hd)] at hc
          have : b0 = b := by injection hc
          rw [hb, ← this]
          simpa [PIPELINE_VECTOR_DIMENSIONS] using hd
        · rw [if_pos (by simpa using hd)] at hc
          exact absurd hc (by simp)

/-- A deterministic-backend configuration used to instantiate the
startup theorem. -/
def sampleSettings : Settings := ⟨"deterministic", "m", 512, 64, 2000000⟩

/-- The backend `create_backend` builds for `sampleSettings`. -/
noncomputable def sampleBackend : Backend ℝ :=
  ⟨"deterministic", PIPELINE_VECTOR_DIMENSIONS,
    fun texts ml => Except.ok (DeterministicBackend.embed texts ml)⟩

/-- Witness for claim C5: the deterministic configuration constructs a
4096-dimensional backend, passes the startup guard, and yields a running
state of dimensionality 4096. -/
theorem claim_C5_witness :
    constructBackend sampleSettings LoadOutcome.fail = Except.ok sampleBackend ∧
    create_backend sampleSettings LoadOutcome.fail = Except.ok sampleBackend ∧
    run_server_state sampleSettings LoadOutcome.fail 0 =
      some ⟨sampleSettings, sampleBackend, 0⟩ ∧
    sampleBackend.dimensions = 4096 := by
  have hc : constructBackend sampleSettings LoadOutcome.fail = Except.ok sampleBackend := rfl
  have h := (claim_C5_dimension_guard sampleSettings LoadOutcome.fail 0).1 sampleBackend hc
  exact ⟨hc, h.1.mpr rfl, rfl, rfl⟩

/-! ## The HTTP surface (`create_handler` in main.py). -/

/-- The error payloads the handler writes as the JSON object with a
single "error" field; each constructor corresponds to one message
(`notFound` renders the string "not found", the `ValErr` payloads carry
their source messages, `countMismatch`/`dimMismatch` carry the numbers
interpolated into the f-strings). -/
inductive EMsg where
  | notFound
  | invalidContentLength
  | emptyBody
  | bodyTooLarge : Int → Int → EMsg
  | invalidJson
  | notAnObject
  | val : ValErr → EMsg
  | inferenceFailed : String → EMsg
  | countMismatch : Nat → Nat → EMsg
  | dimMismatch : Nat → Nat → EMsg

/-- A response body: an error object, the health payload (whose fields —
uptime wall clock, backend health — no claim depends on), one of the two
success envelopes, or the stdlib's own HTML error page (written by
`BaseHTTPRequestHandler.send_error`, not by this service's code). -/
inductive RespBody (α : Type) where
  | errorMsg : EMsg → RespBody α
  | health : RespBody α
  | native : List (List α) → String → Nat → Nat → RespBody α
  | openai : List (Nat × List α) → String → RespBody α
  | baseHtmlError : RespBody α

/-- A response: HTTP status code and body. -/
structure Resp (α : Type) where
  status : Nat
  body : RespBody α

/-- The transport-level inputs to `_read_json`, at the boundary of the
model: the parsed Content-Length header (`none` when `int()` on the
header string fails; the header defaults to "0" when absent, which
parses to 0) and the decoded body (`none` when `json.loads` raises). -/
structure RawRequest where
  contentLength : Option Int
  decodedJson : Option JValue

/-- `Handler._read_json`: validate the Content-Length header, the body
size bound, the JSON decode, and the top-level-object requirement. -/
def read_json (req : RawRequest) (max_body : Int) : Except EMsg (List (String × JValue)) :=
  match req.contentLength with
  | none => Except.error EMsg.invalidContentLength
  | some n =>
    if n ≤ 0 then Except.error EMsg.emptyBody
    else if max_body < n then Except.error (EMsg.bodyTooLarge n max_body)
    else
      match req.decodedJson with
      | none => Except.error EMsg.invalidJson
      | some (JValue.obj fields) => Except.ok fields
      | some _ => Except.error EMsg.notAnObject

/-- The width check `len(vectors) > 0 and len(vectors[0]) != dims`. -/
def firstWidthBad {α : Type} (vectors : List (List α)) (dims : Nat) : Bool :=
  match vectors with
  | [] => false
  | v0 :: _ => v0.length != dims

/-- The success rendering of `do_POST`: the OpenAI-style envelope for
`/v1/embeddings` (vectors tagged with their indices), the native envelope
otherwise (`elapsed_ms`, a wall-clock measurement, is outside the
model). -/
def renderSuccess {α : Type} (path : String) (vectors : List (List α)) (settings : Settings)
    (backend : Backend α) : Resp α :=
  if path = "/v1/embeddings" then ⟨200, RespBody.openai vectors.enum settings.model_name⟩
  else ⟨200, RespBody.native vectors settings.model_name backend.dimensions vectors.length⟩

/-- `Handler.do_POST`: route, read and validate the body, resolve
`max_length`, call the backend, enforce the per-response dimension guard,
and render. -/
def do_POST {α : Type} (path : String) (req : RawRequest) (settings : Settings)
    (backend : Backend α) : Resp α :=
  if path ≠ "/embed" ∧ path ≠ "/v1/embeddings" then ⟨404, RespBody.errorMsg EMsg.notFound⟩
  else
    match read_json req settings.max_body_bytes with
    | Except.error e => ⟨400, RespBody.errorMsg e⟩
    | Except.ok body =>
      match parse_input_texts body settings.max_items with
      | Except.error e => ⟨400, RespBody.errorMsg (EMsg.val e)⟩
      | Except.ok texts =>
        match backend.embed texts (parse_max_length body settings.max_length) with
        | Except.error exc => ⟨500, RespBody.errorMsg (EMsg.inferenceFailed exc)⟩
        | Except.ok vectors =>
          if vectors.length ≠ texts.length then
            ⟨500, RespBody.errorMsg (EMsg.countMismatch vectors.length texts.length)⟩
          else if firstWidthBad vectors backend.dimensions then
            ⟨500, RespBody.errorMsg
              (EMsg.dimMismatch (vectors.headD []).length backend.dimensions)⟩
          else renderSuccess path vectors settings backend

/-- `Handler.do_GET`: only `/health` is served. -/
def do_GET {α : Type} (path : String) : Resp α :=
  if path ≠ "/health" then ⟨404, RespBody.errorMsg EMsg.notFound⟩
  else ⟨200, RespBody.health⟩

/-- `BaseHTTPRequestHandler` method dispatch: the handler class defines
only `do_GET` and `do_POST`; for any other verb the stdlib base class
answers 501 ("Unsupported method") with its own HTML error body. -/
def handleRequest {α : Type} (verb path : String) (req : RawRequest) (settings : Settings)
    (backend : Backend α) : Resp α :=
  if verb = "GET" then do_GET path
  else if verb = "POST" then do_POST path req settings backend
  else ⟨501, RespBody.baseHtmlError⟩

/-- The vectors carried by a success response, under either envelope. -/
def vectorsOf {α : Type} : Resp α → Option (List (List α))
  | ⟨_, RespBody.native vs _ _ _⟩ => some vs
  | ⟨_, RespBody.openai data _⟩ => some (data.map Prod.snd)
  | _ => none

/-- The error payload of an error response. -/
def errOf {α : Type} : Resp α → Option EMsg
  | ⟨_, RespBody.errorMsg e⟩ => some e
  | _ => none

/-- Claim C6: for every POST whose body passes validation and whose
backend call succeeds, the handler returns a 500 response exactly when
the vector count differs from the text count or the first vector's width
differs from the backend's declared dimensionality; when both checks
pass, the success envelope is rendered. -/
theorem claim_C6_response_guard {α : Type} (path : String) (req : RawRequest)
    (settings : Settings) (backend : Backend α) (body : List (String × JValue))
    (texts : List String) (vectors : List (List α))
    (hpath : path = "/embed" ∨ path = "/v1/embeddings")
    (hread : read_json req settings.max_body_bytes = Except.ok body)
    (hval : parse_input_texts body settings.max_items = Except.ok texts)
    (hemb : backend.embed texts (parse_max_length body settings.max_length) =
      Except.ok vectors) :
    ((do_POST path req settings backend).status = 500 ↔
      vectors.length ≠ texts.length ∨ firstWidthBad vectors backend.dimensions = true) ∧
    ((do_POST path req settings backend).status ≠ 500 →
      do_POST path req settings backend = renderSuccess path vectors settings backend) := by
  have hne : ¬(path ≠ "/embed" ∧ path ≠ "/v1/embeddings") := by
    rcases hpath with h | h <;> simp [h]
  have hdo : do_POST path req settings backend =
      (if vectors.length ≠ texts.length then
        ⟨500, RespBody.errorMsg (EMsg.countMismatch vectors.length texts.length)⟩
      else if firstWidthBad vectors backend.dimensions then
        ⟨500, RespBody.errorMsg
          (EMsg.dimMismatch (vectors.headD []).length backend.dimensions)⟩
      else renderSuccess path vectors settings backend) := by
    unfold do_POST
    rw [if_neg hne]
    simp only [hread, hval, hemb]
  rw [hdo]
  by_cases h1 : vectors.length ≠ texts.length
  · simp [h1]
  · by_cases h2 : firstWidthBad vectors backend.dimensions
    · simp [h1, h2]
    · have hs : (renderSuccess path vectors settings backend).status = 200 := by
        unfold renderSuccess
        by_cases hp : path = "/v1/embeddings" <;> simp [hp]
      simp [h1, h2, hs]

/-- A trivial concrete backend over natural-number vectors, used to
instantiate handler theorems. -/
def natBackend : Backend Nat :=
  ⟨"det", 0, fun ts _ => Except.ok (ts.map (fun _ => ([] : List Nat)))⟩

/-- A well-formed concrete request body. -/
def sampleReq : RawRequest := ⟨some 10, some (JValue.obj [("texts", JValue.str "a")])⟩

/-- Witness for claim C6: on a passing request the guard finds no
mismatch and the success envelope is rendered with status 200. -/
theorem claim_C6_witness :
    do_POST "/embed" sampleReq sampleSettings natBackend =
      renderSuccess "/embed" [[]] sampleSettings natBackend ∧
    (do_POST "/embed" sampleReq sampleSettings natBackend).status = 200 := by
  have h := claim_C6_response_guard "/embed" sampleReq sampleSettings natBackend
    [("texts", JValue.str "a")] ["a"] [[]] (Or.inl rfl) rfl rfl rfl
  have hns : (do_POST "/embed" sampleReq sampleSettings natBackend).status ≠ 500 := by
    intro hs
    rcases h.1.mp hs with hbad | hbad
    · exact hbad rfl
    · exact absurd hbad (by decide)
  exact ⟨h.2 hns, by rw [h.2 hns]; rfl⟩

/-- Claim C7: posting the same raw request to `/embed` and to
`/v1/embeddings` exercises the identical pipeline — the two responses
carry element-wise identical vectors in the same order, the same status,
and the same error payload, differing only in envelope shape. -/
theorem claim_C7_protocol_equivalence {α : Type} (req : RawRequest) (settings : Settings)
    (backend : Backend α) :
    vectorsOf (do_POST "/embed" req settings backend) =
      vectorsOf (do_POST "/v1/embeddings" req settings backend) ∧
    (do_POST "/embed" req settings backend).status =
      (do_POST "/v1/embeddings" req settings backend).status ∧
    errOf (do_POST "/embed" req settings backend) =
      errOf (do_POST "/v1/embeddings" req settings backend) := by
  unfold do_POST
  rw [if_neg (by simp), if_neg (by simp)]
  cases hr : read_json req settings.max_body_bytes with
  | error e => simp [hr, vectorsOf, errOf]
  | ok body =>
    simp only [hr]
    cases hv : parse_input_texts body settings.max_items with
    | error e => simp [hv, vectorsOf, errOf]
    | ok texts =>
      simp only [hv]
      cases he : backend.embed texts (parse_max_length body settings.max_length) with
      | error exc => simp [he, vectorsOf, errOf]
      | ok vectors =>
        simp only [he]
        by_cases h1 : vectors.length ≠ texts.length
        · simp [h1]
        · by_cases h2 : firstWidthBad vectors backend.dimensions
          · simp [h1, h2]
          · simp [h1, h2, renderSuccess, vectorsOf, errOf, List.enum_map_snd]

/-- Counterexample to claim C8 as stated: a request with verb PUT (not
GET or POST) to `/embed` is answered by the stdlib dispatch with the 501
"Unsupported method" error page, not with the 404 JSON body the claim
requires for every unmatched path/method combination. -/
theorem claim_C8_counterexample :
    handleRequest "PUT" "/embed" sampleReq sampleSettings natBackend =
      ⟨501, RespBody.baseHtmlError⟩ ∧
    (⟨501, RespBody.baseHtmlError⟩ : Resp Nat) ≠ ⟨404, RespBody.errorMsg EMsg.notFound⟩ := by
  refine ⟨rfl, fun h => ?_⟩
  have hs := congrArg Resp.status h
  simp at hs

/-- Claim C8, amended: a GET whose path is not `/health`, and a POST
whose path is neither `/embed` nor `/v1/embeddings`, are answered 404
with the JSON body carrying the "not found" error; a request with any
verb other than GET or POST is answered by the HTTP framework's 501
"Unsupported method" error page instead, because the handler class
defines no method for it. -/
theorem claim_C8_amended {α : Type} (verb path : String) (req : RawRequest)
    (settings : Settings) (backend : Backend α) :
    (verb = "GET" → path ≠ "/health" →
      handleRequest verb path req settings backend = ⟨404, RespBody.errorMsg EMsg.notFound⟩) ∧
    (verb = "POST" → path ≠ "/embed" → path ≠ "/v1/embeddings" →
      handleRequest verb path req settings backend = ⟨404, RespBody.errorMsg EMsg.notFound⟩) ∧
    (verb ≠ "GET" → verb ≠ "POST" →
      handleRequest verb path req settings backend = ⟨501, RespBody.baseHtmlError⟩) := by
  refine ⟨?_, ?_, ?_⟩
  · intro hv hp
    subst hv
    unfold handleRequest do_GET
    rw [if_pos rfl, if_pos hp]
  · intro hv hp1 hp2
    subst hv
    unfold handleRequest do_POST
    rw [if_neg (by simp), if_pos rfl, if_pos ⟨hp1, hp2⟩]
  · intro hv1 hv2
    unfold handleRequest
    rw [if_neg hv1, if_neg hv2]

/-- Witness for the amended claim C8 at concrete requests. -/
theorem claim_C8_witness :
    handleRequest "GET" "/nope" sampleReq sampleSettings natBackend =
      ⟨404, RespBody.errorMsg EMsg.notFound⟩ ∧
    handleRequest "POST" "/nope" sampleReq sampleSettings natBackend =
      ⟨404, RespBody.errorMsg EMsg.notFound⟩ ∧
    handleRequest "DELETE" "/embed" sampleReq sampleSettings natBackend =
      ⟨501, RespBody.baseHtmlError⟩ := by
  have h1 := claim_C8_amended "GET" "/nope" sampleReq sampleSettings natBackend
  have h2 := claim_C8_amended "POST" "/nope" sampleReq sampleSettings natBackend
  have h3 := claim_C8_amended "DELETE" "/embed" sampleReq sampleSettings natBackend
  exact ⟨h1.1 rfl (by simp), h2.2.1 rfl (by simp) (by simp),
    h3.2.2 (by simp) (by simp)⟩

end EmbeddingService
